import Mathlib

/-!
Verification development for the CodexKeep ETL pipeline
(repository `Into-The-Grey/CodexKeep`).

The repository contains two variants of the batched load subsystem:
the modular scripts (`scripts/batch_processing.py`, `scripts/error_handling.py`,
`scripts/data_processing.py`, `scripts/validation.py`) and an older monolithic
variant inside `scripts/ckdb_initialization_script.py`.  Both are embedded
below; the modular functions live in namespace `BatchProcessing` /
`ErrorHandling` / `DataProcessing` / `Validation`, the monolithic ones in
namespace `Ckdb`.

Modelling conventions:
* `time.strftime` timestamps are passed in as an explicit `ts : String`
  parameter;
* the database connection object is modelled by `conn : Bool`
  (`true` = present, `false` = the Python `None`);
* the store is a pair of row lists: `committed` rows (visible after a
  `commit()`) and `pending` rows (issued by `cursor.execute` inside the
  currently open transaction, discarded by `rollback()`);
* exceptions raised by the external database driver are modelled by an
  oracle `DBEnv`: `execErr item` is the exception (if any) raised while
  executing the upsert for `item`, and `commitErr n` the exception (if any)
  raised by the `commit()` of batch number `n`.  `psycopg2.Error` and other
  Python exceptions (e.g. `KeyError` on a malformed item dict) are
  distinguished because `ckdb_initialization_script.py` handles them in two
  different `except` branches;
* Python string values read back from the database are modelled as Lean
  `String`s (the `isinstance(item_id, (str, int))` test in
  `scripts/validation.py` is then always satisfied; the truthiness test
  `not item_id` becomes an emptiness test).
-/

namespace CodexKeep

/-! ## Data model: row records and the store -/

/-- A processed row record, the dictionary shape produced by
`process_item_data` and consumed by `insert_batch_to_db`
(fields `item_id`, `name`, `description`, `rarity`, `icon`). -/
structure Item where
  item_id : String
  name : String
  description : String
  rarity : String
  icon : String
deriving Repr, DecidableEq

/-- A persisted row of the `Items` table:
`(ItemID, Name, Description, Rarity, ImageURL)`. -/
structure Row where
  item_id : String
  name : String
  description : String
  rarity : String
  icon : String
deriving Repr, DecidableEq

/-- The row written for an item by the upsert statement
`INSERT INTO Items (ItemID, Name, Description, Rarity, ImageURL) VALUES (...)`. -/
def toRow (it : Item) : Row :=
  { item_id := it.item_id, name := it.name, description := it.description,
    rarity := it.rarity, icon := it.icon }

/-- The relational store: rows made durable by `commit()` plus rows issued
inside the currently open transaction (not yet committed). -/
structure Store where
  committed : List Row
  pending : List Row
deriving Repr, DecidableEq

/-- `true` iff some row of `rows` already carries key `k`
(the `ItemID` primary key). -/
def hasKey (rows : List Row) (k : String) : Bool :=
  rows.any (fun r => r.item_id = k)

/-- One `cursor.execute` of the upsert statement inside the open
transaction: `ON CONFLICT (ItemID) DO NOTHING` — if the key is already
present (committed or issued earlier in this transaction) nothing happens,
otherwise the row is added to the pending rows. -/
def upsertPending (s : Store) (it : Item) : Store :=
  if hasKey (s.committed ++ s.pending) it.item_id then s
  else { s with pending := s.pending ++ [toRow it] }

/-- `conn.commit()`: the pending rows become durable. -/
def commitStore (s : Store) : Store :=
  { committed := s.committed ++ s.pending, pending := [] }

/-- `conn.rollback()`: the pending rows are discarded. -/
def rollbackStore (s : Store) : Store :=
  { s with pending := [] }

/-! ## Error handling (`scripts/error_handling.py` and the monolithic
`ckdb_initialization_script.py` STEP 4) -/

/-- The observable logging state: the module-level in-memory lists
`ERROR_LOG` (error_handling.py) and `BATCH_ERRORS`
(ckdb_initialization_script.py), the lines of the persistent append-only
file `error_log.txt`, and the lines printed to the console. -/
structure ErrState where
  error_log : List String
  batch_errors : List String
  file : List String
  console : List String
deriving Repr, DecidableEq

/-- The empty logging state at interpreter start. -/
def ErrState.empty : ErrState :=
  { error_log := [], batch_errors := [], file := [], console := [] }

/-- A bare `print(...)` call: console output only. -/
def consoleLine (msg : String) (s : ErrState) : ErrState :=
  { s with console := s.console ++ [msg] }

namespace ErrorHandling

/-- The line format of `error_handling.log_error`:
`[<timestamp>] CRITICAL|ERROR: <message>`. -/
def error_entry (ts : String) (critical : Bool) (msg : String) : String :=
  "[" ++ ts ++ "] " ++ (if critical then "CRITICAL" else "ERROR") ++ ": " ++ msg

/-- `error_handling.log_error`: appends the entry to the in-memory
`ERROR_LOG`, to the persistent file `error_log.txt`, and prints it. -/
def log_error (ts : String) (critical : Bool) (msg : String) (s : ErrState) : ErrState :=
  let entry := error_entry ts critical msg
  { s with error_log := s.error_log ++ [entry],
           file := s.file ++ [entry],
           console := s.console ++ [entry] }

/-- The line format of `error_handling.log_batch_error`:
`[<timestamp>] BATCH <n> ERROR: <message>`. -/
def batch_entry (ts : String) (n : Nat) (msg : String) : String :=
  "[" ++ ts ++ "] BATCH " ++ toString n ++ " ERROR: " ++ msg

/-- `error_handling.log_batch_error`: appends the entry to the in-memory
`ERROR_LOG` and prints it.  (Note: unlike `log_error`, this function does
not touch the persistent file.) -/
def log_batch_error (ts : String) (n : Nat) (msg : String) (s : ErrState) : ErrState :=
  let entry := batch_entry ts n msg
  { s with error_log := s.error_log ++ [entry],
           console := s.console ++ [entry] }

/-- `error_handling.handle_critical_error`: logs critically and, when
`exit_on_failure` is set, terminates the process via `sys.exit(1)`
(signalled by returning `some 1` as the exit code). -/
def handle_critical_error (ts : String) (msg : String) (exit_on_failure : Bool)
    (s : ErrState) : ErrState × Option Nat :=
  (log_error ts true msg s, if exit_on_failure then some 1 else none)

end ErrorHandling

namespace Ckdb

/-- The line format of the monolithic script's `log_batch_error`:
`[<timestamp>] BATCH <n>: <message>`. -/
def batch_entry (ts : String) (n : Nat) (msg : String) : String :=
  "[" ++ ts ++ "] BATCH " ++ toString n ++ ": " ++ msg

/-- `ckdb_initialization_script.log_batch_error`: appends the entry to the
in-memory `BATCH_ERRORS`, to the persistent file `error_log.txt`, and
prints it. -/
def log_batch_error (ts : String) (n : Nat) (msg : String) (s : ErrState) : ErrState :=
  let entry := batch_entry ts n msg
  { s with batch_errors := s.batch_errors ++ [entry],
           file := s.file ++ [entry],
           console := s.console ++ [entry] }

end Ckdb

/-! ## The external database driver as an error oracle -/

/-- A Python exception raised while inserting: either a `psycopg2.Error`
(database error) or any other exception (e.g. a `KeyError` raised while
reading a field of a malformed item dict). -/
inductive PyError where
  | db (msg : String)
  | other (msg : String)
deriving Repr, DecidableEq

/-- The text of the exception (what `f"... {e}"` interpolates). -/
def PyError.msg : PyError → String
  | .db m => m
  | .other m => m

/-- The failure oracle for a run: which exception (if any) the per-item
`cursor.execute` raises, and which exception (if any) the `commit()` of a
given batch number raises (commit failures are database errors). -/
structure DBEnv where
  execErr : Item → Option PyError
  commitErr : Nat → Option String

/-- The no-failure oracle. -/
def DBEnv.ok : DBEnv :=
  { execErr := fun _ => none, commitErr := fun _ => none }

/-- Outcome of the `for item in batch: cur.execute(...)` loop: either all
upserts were issued (`ok` with the resulting store) or the first failing
item raised (`err` with the store at that point and the exception). -/
inductive ExecOut where
  | ok (s : Store)
  | err (s : Store) (e : PyError)
deriving Repr

/-- The per-record issue loop of `insert_batch_to_db`: executes the upsert
for each item in order, stopping at the first raised exception. -/
def execBatch (env : DBEnv) (s : Store) : List Item → ExecOut
  | [] => .ok s
  | it :: rest =>
    match env.execErr it with
    | some e => .err s e
    | none => execBatch env (upsertPending s it) rest

/-! ## The modular batch committer and driver (`scripts/batch_processing.py`) -/

/-- Combined mutable state visible to the modular batch code. -/
structure SysState where
  store : Store
  log : ErrState
deriving Repr

namespace BatchProcessing

/-- The configured default batch capacity of `scripts/batch_processing.py`
(`int(os.getenv("BATCH_SIZE", "1000"))`, validated positive at module
load).  The functions below take the configured capacity as the parameter
`c`. -/
def BATCH_SIZE : Nat := 1000

/-- `batch_processing.insert_batch_to_db`:
* a `None` connection is logged via `log_batch_error` and nothing else
  happens;
* otherwise each item's upsert is executed in order and the transaction is
  committed; any exception from the execute loop or from the commit is
  caught, logged via `log_batch_error` with text
  `Failed to insert batch: <e>`, and the transaction is rolled back;
* on success an INFO line is printed. -/
def insert_batch_to_db (env : DBEnv) (ts : String) (conn : Bool) (st : SysState)
    (batch : List Item) (batch_number : Nat) : SysState :=
  if conn = false then
    let log' := ErrorHandling.log_batch_error ts batch_number
      "Database connection is None." st.log
    { st with log := log' }
  else
    match execBatch env st.store batch with
    | .err s e =>
      let log' := ErrorHandling.log_batch_error ts batch_number
        ("Failed to insert batch: " ++ e.msg) st.log
      { store := rollbackStore s, log := log' }
    | .ok s =>
      match env.commitErr batch_number with
      | some e =>
        let log' := ErrorHandling.log_batch_error ts batch_number
          ("Failed to insert batch: " ++ e) st.log
        { store := rollbackStore s, log := log' }
      | none =>
        let log' := consoleLine ("[INFO] Batch " ++ toString batch_number ++
          ": Inserted " ++ toString batch.length ++ " items.") st.log
        { store := commitStore s, log := log' }

/-- Result of a driver run: final state, final value of the
`batch_number` counter, and the trace of `(batch_number, batch)` pairs
handed to `insert_batch_to_db` (ghost instrumentation recording each
submission). -/
structure RunResult where
  state : SysState
  batch_number : Nat
  submitted : List (Nat × List Item)
deriving Repr

/-- The `for item in items` loop of `process_items_in_batches`, carrying
the local accumulator `batch` and the counter `batch_number`, followed by
the trailing flush `if batch: ...` and the final INFO print. -/
def processLoop (env : DBEnv) (ts : String) (c : Nat) (conn : Bool) :
    List Item → List Item → Nat → SysState → List (Nat × List Item) → RunResult
  | [], batch, n, st, tr =>
    if batch = [] then
      let log' := consoleLine ("[INFO] Finished batch processing. Total batches: " ++
        toString n) st.log
      ⟨{ st with log := log' }, n, tr⟩
    else
      let n' := n + 1
      let st' := insert_batch_to_db env ts conn st batch n'
      let log' := consoleLine ("[INFO] Finished batch processing. Total batches: " ++
        toString n') st'.log
      ⟨{ st' with log := log' }, n', tr ++ [(n', batch)]⟩
  | it :: rest, batch, n, st, tr =>
    let b := batch ++ [it]
    if c ≤ b.length then
      let n' := n + 1
      let st' := insert_batch_to_db env ts conn st b n'
      processLoop env ts c conn rest [] n' st' (tr ++ [(n', b)])
    else
      processLoop env ts c conn rest b n st tr

/-- `batch_processing.process_items_in_batches` with configured capacity
`c`: accumulates items into a local buffer, submits the buffer to
`insert_batch_to_db` (and clears it) whenever it reaches `c` records, and
submits the trailing partial buffer if non-empty. -/
def process_items_in_batches (env : DBEnv) (ts : String) (c : Nat) (conn : Bool)
    (st : SysState) (items : List Item) : RunResult :=
  processLoop env ts c conn items [] 0 st []

end BatchProcessing

/-! ## The monolithic batch committer and driver
(`scripts/ckdb_initialization_script.py`, Phase 4) -/

namespace Ckdb

/-- The configured batch capacity of the monolithic script
(`BATCH_SIZE = 2500`).  The functions below take the configured capacity
as the parameter `c`. -/
def BATCH_SIZE : Nat := 2500

/-- Mutable state visible to the monolithic batch code: the store, the
logging state, and the module-level globals `current_batch` (the shared
temporary buffer), `total_inserted` and `batch_number`. -/
structure State where
  store : Store
  log : ErrState
  current_batch : List Item
  total_inserted : Nat
  batch_number : Nat
deriving Repr

/-- `ckdb_initialization_script.insert_batch_to_db`:
* a `None` connection is logged via the script's `log_batch_error` and the
  function returns at once — note that this early return happens before
  the `try`, so the `finally` clause that clears `current_batch` is never
  reached on this path;
* otherwise each item's upsert is executed in order and the transaction is
  committed; a `psycopg2.Error` (from an execute or the commit) is logged
  as `Database error: <e>` and the transaction is rolled back; any other
  exception is logged as `Unexpected error during batch insertion: <e>`
  with NO rollback (the already-issued rows stay pending in the open
  transaction);
* on success `total_inserted` grows by the batch length and an INFO line
  is printed;
* the `finally` clause clears the global `current_batch` buffer. -/
def insert_batch_to_db (env : DBEnv) (ts : String) (conn : Bool) (st : State)
    (batch : List Item) (current_batch_number : Nat) : State :=
  if conn = false then
    let log' := Ckdb.log_batch_error ts current_batch_number
      "Database connection is None." st.log
    { st with log := log' }
  else
    let st' :=
      match execBatch env st.store batch with
      | .err s (.db m) =>
        let log' := Ckdb.log_batch_error ts current_batch_number
          ("Database error: " ++ m) st.log
        { st with store := rollbackStore s, log := log' }
      | .err s (.other m) =>
        let log' := Ckdb.log_batch_error ts current_batch_number
          ("Unexpected error during batch insertion: " ++ m) st.log
        { st with store := s, log := log' }
      | .ok s =>
        match env.commitErr current_batch_number with
        | some m =>
          let log' := Ckdb.log_batch_error ts current_batch_number
            ("Database error: " ++ m) st.log
          { st with store := rollbackStore s, log := log' }
        | none =>
          let log' := consoleLine ("[INFO] Batch " ++ toString current_batch_number ++
            ": Successfully inserted " ++ toString batch.length ++ " items.") st.log
          { st with store := commitStore s,
                    total_inserted := st.total_inserted + batch.length, log := log' }
    { st' with current_batch := [] }

/-- The `for item in items` loop of the monolithic
`process_items_in_batches`: items are appended to the global
`current_batch`; whenever its length reaches `BATCH_SIZE` the global
`batch_number` is incremented and the buffer is submitted (it is cleared
only by the callee's `finally`, i.e. only when the connection is present).
The returned trace records each `(batch_number, batch)` submission. -/
def processLoop (env : DBEnv) (ts : String) (c : Nat) (conn : Bool) :
    List Item → State → List (Nat × List Item) → State × List (Nat × List Item)
  | [], st, tr =>
    if st.current_batch = [] then
      let log' := consoleLine ("[INFO] Total items processed and inserted: " ++
        toString st.total_inserted) st.log
      ({ st with log := log' }, tr)
    else
      let n := st.batch_number + 1
      let b := st.current_batch
      let st1 := insert_batch_to_db env ts conn { st with batch_number := n } b n
      let log' := consoleLine ("[INFO] Total items processed and inserted: " ++
        toString st1.total_inserted) st1.log
      ({ st1 with log := log' }, tr ++ [(n, b)])
  | it :: rest, st, tr =>
    let st' := { st with current_batch := st.current_batch ++ [it] }
    if c ≤ st'.current_batch.length then
      let n := st'.batch_number + 1
      let b := st'.current_batch
      let st1 := insert_batch_to_db env ts conn { st' with batch_number := n } b n
      processLoop env ts c conn rest st1 (tr ++ [(n, b)])
    else
      processLoop env ts c conn rest st' tr

/-- `ckdb_initialization_script.process_items_in_batches` with configured
capacity `c`. -/
def process_items_in_batches (env : DBEnv) (ts : String) (c : Nat) (conn : Bool)
    (st : State) (items : List Item) : State × List (Nat × List Item) :=
  processLoop env ts c conn items st []

end Ckdb

/-! ## Record transformation (`scripts/data_processing.py`) -/

namespace DataProcessing

/-- The `displayProperties` sub-mapping of a raw manifest item; each entry
may be absent (a missing `name` raises `KeyError`, the others are read
with `.get`). -/
structure DisplayProperties where
  name : Option String
  description : Option String
  icon : Option String
deriving Repr, DecidableEq

/-- The `inventory` sub-mapping of a raw manifest item; `tierTypeName` is
read with `.get("tierTypeName", "Unknown")`. -/
structure Inventory where
  tierTypeName : Option String
deriving Repr, DecidableEq

/-- A raw manifest item value: the sub-mappings accessed by
`process_item_data`.  `displayProperties` and `inventory` are accessed
with `[...]` (raising `KeyError` when absent), `itemCategoryHashes` with
`.get(..., [])`. -/
structure ItemData where
  displayProperties : Option DisplayProperties
  inventory : Option Inventory
  itemCategoryHashes : Option (List Nat)
deriving Repr, DecidableEq

/-- The processed record appended to `processed_items_list`. -/
structure ProcessedItem where
  item_id : String
  name : String
  description : String
  rarity : String
  category_hashes : List Nat
  icon : String
deriving Repr, DecidableEq

/-- The body of the `for item_id, item_data in items.items()` loop of
`process_item_data` for one item: evaluates the field reads in source
order and either returns the processed record or the `KeyError` key that
made the body raise (`displayProperties`, `name` or `inventory`). -/
def processItem (item_id : String) (d : ItemData) : Except String ProcessedItem :=
  match d.displayProperties with
  | none => .error "displayProperties"
  | some dp =>
    match dp.name with
    | none => .error "name"
    | some nm =>
      let description := dp.description.getD ""
      match d.inventory with
      | none => .error "inventory"
      | some inv =>
        let rarity := inv.tierTypeName.getD "Unknown"
        let category_hashes := d.itemCategoryHashes.getD []
        let icon := "https://www.bungie.net" ++ dp.icon.getD ""
        .ok { item_id := item_id, name := nm, description := description,
              rarity := rarity, category_hashes := category_hashes, icon := icon }

/-- `data_processing.process_item_data`: processes each raw item in order;
an item whose body raises `KeyError` is skipped and the message
`Failed to process item <id>: Missing key <key>` is passed to
`log_error`.  Returns the processed list and the logged messages.
(In the source the `KeyError` argument is rendered with quotes around the
key name; the quotes are elided here.) -/
def process_item_data : List (String × ItemData) → List ProcessedItem × List String
  | [] => ([], [])
  | (item_id, d) :: rest =>
    let (ps, es) := process_item_data rest
    match processItem item_id d with
    | .ok p => (p :: ps, es)
    | .error k =>
      (ps, ("Failed to process item " ++ item_id ++ ": Missing key " ++ k) :: es)

/-- Projection of a processed record onto the five fields read by
`insert_batch_to_db` (in the source the very same dict flows on; the
`category_hashes` entry is simply never read by the committer). -/
def toItem (p : ProcessedItem) : Item :=
  { item_id := p.item_id, name := p.name, description := p.description,
    rarity := p.rarity, icon := p.icon }

end DataProcessing

/-! ## Post-load validation (`scripts/validation.py`) -/

namespace Validation

/-- A row of the `Items` table as fetched back by the validator:
`SELECT ItemID, Name, Description, Rarity, ImageURL FROM Items`.
The five values are modelled as strings (see the header comment). -/
structure ItemRow where
  item_id : String
  name : String
  description : String
  rarity : String
  icon : String
deriving Repr, DecidableEq

/-- The fixed enumerated rarity set of `validation.validate_item_row`. -/
def valid_rarity : List String :=
  ["Common", "Uncommon", "Rare", "Legendary", "Exotic"]

/-- `validation.validate_item_row`: the five field rules, checked in
source order with early `return False`.  For string-typed values the
Python truthiness test `not x` is the emptiness test and
`isinstance(item_id, (str, int))` always holds.
`len(name.strip()) == 0` holds exactly when every character of the name
is whitespace, and `icon.startswith("https://")` exactly when the
character list of `"https://"` is a prefix of the icon's; both are stated
in that character-list form.  The per-rule `log_error` calls only produce
diagnostics and are not modelled. -/
def validate_item_row (row : ItemRow) : Bool :=
  if row.item_id = "" then false
  else if row.name = "" ∨ row.name.toList.all (fun ch => ch.isWhitespace)
      ∨ 255 < row.name.length then false
  else if row.description ≠ "" ∧ 1000 < row.description.length then false
  else if row.icon ≠ "" ∧ ¬ ("https://".toList.isPrefixOf row.icon.toList) then false
  else if row.rarity ∉ valid_rarity then false
  else true

/-- The store handle used by the validator: the result of
`cur.execute(SELECT ...)` + `cur.fetchall()`, which either yields the
persisted rows or raises with an error text. -/
structure Conn where
  rows : Except String (List ItemRow)

/-- Whether the validation pass returned normally or terminated the
process via `sys.exit`. -/
inductive RunExit where
  | returned
  | exited (code : Nat)
deriving Repr, DecidableEq

/-- Result of a validation pass: how it ended, the logging state, and the
violation list written to `validation_errors.txt` (empty when no report
is written). -/
structure ValidateResult where
  exit : RunExit
  log : ErrState
  violations : List ItemRow
deriving Repr

/-- `validation.validate_all_items`:
* a `None` connection is handed to
  `handle_critical_error("Database connection is None.", exit_on_failure=True)`,
  which logs critically and terminates the process with exit status 1;
* otherwise the rows are fetched; if the fetch raises, the error is caught
  and logged as `Validation failed: <e>` and the function returns;
* otherwise the rows failing `validate_item_row` are collected and written
  to `validation_errors.txt`. -/
def validate_all_items (ts : String) (conn : Option Conn) (s : ErrState) : ValidateResult :=
  match conn with
  | none =>
    let (s1, _exitCode) := ErrorHandling.handle_critical_error ts
      "Database connection is None." true s
    { exit := .exited 1, log := s1, violations := [] }
  | some c =>
    match c.rows with
    | .error e =>
      { exit := .returned,
        log := ErrorHandling.log_error ts false ("Validation failed: " ++ e) s,
        violations := [] }
    | .ok rows =>
      let invalid := rows.filter (fun r => ¬ validate_item_row r)
      { exit := .returned, log := s, violations := invalid }

end Validation

/-! ## Derived specification functions

`upsertRows` / `insertAll` restate the net effect of the upsert statement
on the visible row sequence (committed followed by pending); they are the
sequential reference the batched committer is compared against. -/

/-- Effect of one upsert on the visible row sequence: skip when the key is
present, append otherwise. -/
def upsertRows (rows : List Row) (it : Item) : List Row :=
  if hasKey rows it.item_id then rows else rows ++ [toRow it]

/-- Effect of upserting a whole stream in order. -/
def insertAll (rows : List Row) (items : List Item) : List Row :=
  items.foldl upsertRows rows

/-! ## Concrete inputs used by witnesses and counterexamples -/

namespace Examples

/-- A record with key `a`. -/
def a0 : Item :=
  { item_id := "a", name := "N", description := "", rarity := "Common", icon := "" }

/-- A record with key `b`. -/
def b0 : Item :=
  { item_id := "b", name := "N", description := "", rarity := "Common", icon := "" }

/-- A record with key `c`. -/
def c0 : Item :=
  { item_id := "c", name := "N", description := "", rarity := "Common", icon := "" }

/-- A record whose insert raises a non-database error under `envKeyErr`
(e.g. a malformed dict raising `KeyError`). -/
def bad0 : Item :=
  { item_id := "x", name := "N", description := "", rarity := "Common", icon := "" }

/-- Oracle under which `bad0`'s execute step raises a `KeyError` and
everything else succeeds. -/
def envKeyErr : DBEnv :=
  { execErr := fun it => if it.item_id = "x" then some (.other "KeyError: item_id") else none,
    commitErr := fun _ => none }

/-- Oracle under which every execute raises a database error. -/
def envDbErr : DBEnv :=
  { execErr := fun _ => some (.db "boom"), commitErr := fun _ => none }

/-- Empty modular state: empty store, fresh logs. -/
def st0 : SysState :=
  { store := { committed := [], pending := [] }, log := ErrState.empty }

/-- Empty monolithic state. -/
def ck0 : Ckdb.State :=
  { store := { committed := [], pending := [] }, log := ErrState.empty,
    current_batch := [], total_inserted := 0, batch_number := 0 }

/-- Monolithic state whose global buffer already holds `a0`. -/
def ck1 : Ckdb.State :=
  { ck0 with current_batch := [a0] }

/-- A fully valid row with rarity `Legendary`. -/
def goodRow : Validation.ItemRow :=
  { item_id := "1", name := "Sword", description := "A sword",
    rarity := "Legendary", icon := "https://img" }

/-- A row identical to `goodRow` except for a 1001-character description. -/
def longRow : Validation.ItemRow :=
  { item_id := "1", name := "Sword", description := String.mk (List.replicate 1001 'x'),
    rarity := "Legendary", icon := "https://img" }

/-- A row identical to `goodRow` except for rarity `Unknown`. -/
def unknownRow : Validation.ItemRow :=
  { item_id := "1", name := "Sword", description := "A sword",
    rarity := "Unknown", icon := "https://img" }

/-- A raw manifest item with every field present. -/
def rawFull : DataProcessing.ItemData :=
  let dp : DataProcessing.DisplayProperties :=
    { name := some "Blade", description := some "d", icon := some "/img.png" }
  { displayProperties := some dp,
    inventory := some { tierTypeName := some "Rare" },
    itemCategoryHashes := some [] }

/-- A raw manifest item whose `inventory` lacks `tierTypeName`. -/
def rawNoTier : DataProcessing.ItemData :=
  { displayProperties := some { name := some "Blade", description := none, icon := none },
    inventory := some { tierTypeName := none },
    itemCategoryHashes := none }

/-- A raw manifest item whose `displayProperties` lacks `name`. -/
def rawNoName : DataProcessing.ItemData :=
  { displayProperties := some { name := none, description := some "d", icon := none },
    inventory := some { tierTypeName := some "Rare" },
    itemCategoryHashes := some [] }

end Examples

/-! ## Lemmas about the store and the execute loop -/

theorem toRow_item_id (it : Item) : (toRow it).item_id = it.item_id := rfl

theorem upsertPending_committed (s : Store) (it : Item) :
    (upsertPending s it).committed = s.committed := by
  unfold upsertPending
  split <;> rfl

theorem execBatch_ok_committed (env : DBEnv) :
    ∀ (batch : List Item) (s s' : Store),
      execBatch env s batch = .ok s' → s'.committed = s.committed := by
  intro batch
  induction batch with
  | nil =>
    intro s s' h
    simp only [execBatch] at h
    cases h
    rfl
  | cons it rest ih =>
    intro s s' h
    simp only [execBatch] at h
    cases he : env.execErr it with
    | some e => rw [he] at h; cases h
    | none =>
      rw [he] at h
      have := ih (upsertPending s it) s' h
      rw [this, upsertPending_committed]

theorem execBatch_err_committed (env : DBEnv) :
    ∀ (batch : List Item) (s s' : Store) (e : PyError),
      execBatch env s batch = .err s' e → s'.committed = s.committed := by
  intro batch
  induction batch with
  | nil =>
    intro s s' e h
    simp only [execBatch] at h
    exact ExecOut.noConfusion h
  | cons it rest ih =>
    intro s s' e h
    simp only [execBatch] at h
    cases he : env.execErr it with
    | some e' =>
      rw [he] at h
      cases h
      rfl
    | none =>
      rw [he] at h
      have := ih (upsertPending s it) s' e h
      rw [this, upsertPending_committed]

theorem execBatch_ok_all (env : DBEnv) :
    ∀ (batch : List Item) (s s' : Store),
      execBatch env s batch = .ok s' → ∀ it ∈ batch, env.execErr it = none := by
  intro batch
  induction batch with
  | nil => intro s s' _ it hit; cases hit
  | cons x rest ih =>
    intro s s' h it hit
    simp only [execBatch] at h
    cases he : env.execErr x with
    | some e => rw [he] at h; cases h
    | none =>
      rw [he] at h
      rcases List.mem_cons.mp hit with rfl | hmem
      · exact he
      · exact ih (upsertPending s x) s' h it hmem

/-! ## Lemmas about `upsertRows` / `insertAll` (key-skipping upsert theory) -/

theorem hasKey_append (v w : List Row) (k : String) :
    hasKey (v ++ w) k = (hasKey v k || hasKey w k) := by
  unfold hasKey
  exact List.any_append

theorem hasKey_upsertRows_self (v : List Row) (it : Item) :
    hasKey (upsertRows v it) it.item_id = true := by
  unfold upsertRows
  split_ifs with h
  · exact h
  · rw [hasKey_append]
    have : hasKey [toRow it] it.item_id = true := by
      unfold hasKey
      simp [toRow_item_id]
    rw [this, Bool.or_true]

theorem hasKey_upsertRows_mono (v : List Row) (it : Item) (k : String)
    (h : hasKey v k = true) : hasKey (upsertRows v it) k = true := by
  unfold upsertRows
  split
  · exact h
  · rw [hasKey_append, h, Bool.true_or]

theorem hasKey_insertAll_mono (items : List Item) :
    ∀ (v : List Row) (k : String), hasKey v k = true →
      hasKey (insertAll v items) k = true := by
  induction items with
  | nil => intro v k h; exact h
  | cons it rest ih =>
    intro v k h
    unfold insertAll at *
    simp only [List.foldl_cons]
    exact ih (upsertRows v it) k (hasKey_upsertRows_mono v it k h)

theorem hasKey_insertAll_of_mem (items : List Item) :
    ∀ (v : List Row) (it : Item), it ∈ items →
      hasKey (insertAll v items) it.item_id = true := by
  induction items with
  | nil => intro v it hit; cases hit
  | cons x rest ih =>
    intro v it hit
    unfold insertAll
    simp only [List.foldl_cons]
    rcases List.mem_cons.mp hit with rfl | hmem
    · exact hasKey_insertAll_mono rest (upsertRows v it) it.item_id
        (hasKey_upsertRows_self v it)
    · exact ih (upsertRows v x) it hmem

theorem insertAll_eq_self (items : List Item) :
    ∀ (v : List Row), (∀ it ∈ items, hasKey v it.item_id = true) →
      insertAll v items = v := by
  induction items with
  | nil => intro v _; rfl
  | cons x rest ih =>
    intro v h
    unfold insertAll
    simp only [List.foldl_cons]
    have hx : upsertRows v x = v := by
      unfold upsertRows
      rw [if_pos]
      exact h x (List.mem_cons_self x rest)
    rw [hx]
    exact ih v (fun it hit => h it (List.mem_cons_of_mem x hit))

/-- Upserting the same stream a second time changes nothing. -/
theorem insertAll_idem (v : List Row) (items : List Item) :
    insertAll (insertAll v items) items = insertAll v items :=
  insertAll_eq_self items (insertAll v items)
    (fun it hit => hasKey_insertAll_of_mem items v it hit)

/-! ## Happy-path correspondence: the batched committer equals `insertAll` -/

theorem upsertPending_view (s : Store) (it : Item) :
    (upsertPending s it).committed ++ (upsertPending s it).pending =
      upsertRows (s.committed ++ s.pending) it := by
  unfold upsertPending upsertRows
  split_ifs with h
  · rfl
  · simp [List.append_assoc]

theorem execBatch_ok_of_noerr (env : DBEnv) (Hexec : ∀ it, env.execErr it = none) :
    ∀ (batch : List Item) (s : Store),
      ∃ s', execBatch env s batch = .ok s' ∧
        s'.committed ++ s'.pending = insertAll (s.committed ++ s.pending) batch := by
  intro batch
  induction batch with
  | nil =>
    intro s
    exact ⟨s, rfl, rfl⟩
  | cons it rest ih =>
    intro s
    obtain ⟨s', h1, h2⟩ := ih (upsertPending s it)
    refine ⟨s', ?_, ?_⟩
    · simp only [execBatch, Hexec it]
      exact h1
    · rw [h2, upsertPending_view]
      rfl

theorem insert_batch_ok (env : DBEnv) (ts : String) (st : SysState)
    (batch : List Item) (n : Nat)
    (Hexec : ∀ it, env.execErr it = none) (Hcommit : ∀ m, env.commitErr m = none) :
    (BatchProcessing.insert_batch_to_db env ts true st batch n).store.committed =
      insertAll (st.store.committed ++ st.store.pending) batch ∧
    (BatchProcessing.insert_batch_to_db env ts true st batch n).store.pending = [] := by
  obtain ⟨s', h1, h2⟩ := execBatch_ok_of_noerr env Hexec batch st.store
  unfold BatchProcessing.insert_batch_to_db
  rw [if_neg (by simp), h1, Hcommit n]
  exact ⟨h2, rfl⟩

theorem processLoop_ok (env : DBEnv) (ts : String) (c : Nat)
    (Hexec : ∀ it, env.execErr it = none) (Hcommit : ∀ m, env.commitErr m = none) :
    ∀ (items batch : List Item) (n : Nat) (st : SysState) (tr : List (Nat × List Item)),
      st.store.pending = [] →
      (BatchProcessing.processLoop env ts c true items batch n st tr).state.store.committed =
        insertAll st.store.committed (batch ++ items) ∧
      (BatchProcessing.processLoop env ts c true items batch n st tr).state.store.pending = [] := by
  intro items
  induction items with
  | nil =>
    intro batch n st tr hp
    simp only [BatchProcessing.processLoop]
    split_ifs with hb
    · subst hb
      exact ⟨rfl, hp⟩
    · have h := insert_batch_ok env ts st batch (n + 1) Hexec Hcommit
      rw [hp, List.append_nil] at h
      simpa [List.append_nil] using h
  | cons it rest ih =>
    intro batch n st tr hp
    simp only [BatchProcessing.processLoop]
    split_ifs with hc
    · have h := insert_batch_ok env ts st (batch ++ [it]) (n + 1) Hexec Hcommit
      rw [hp, List.append_nil] at h
      have ihr := ih [] (n + 1)
        (BatchProcessing.insert_batch_to_db env ts true st (batch ++ [it]) (n + 1))
        (tr ++ [(n + 1, batch ++ [it])]) h.2
      refine ⟨?_, ihr.2⟩
      rw [ihr.1, h.1, List.nil_append]
      unfold insertAll
      rw [← List.foldl_append]
      congr 1
      simp
    · have ihr := ih (batch ++ [it]) n st tr hp
      refine ⟨?_, ihr.2⟩
      rw [ihr.1]
      congr 1
      simp

/-! ## Counting and size lemmas for the modular driver loop -/

theorem processLoop_count (env : DBEnv) (ts : String) (c : Nat) (conn : Bool)
    (hc : 0 < c) :
    ∀ (items batch : List Item) (n : Nat) (st : SysState) (tr : List (Nat × List Item)),
      batch.length < c →
      (BatchProcessing.processLoop env ts c conn items batch n st tr).batch_number =
        n + (batch.length + items.length + c - 1) / c ∧
      (BatchProcessing.processLoop env ts c conn items batch n st tr).submitted.length =
        tr.length + (batch.length + items.length + c - 1) / c := by
  intro items
  induction items with
  | nil =>
    intro batch n st tr hb
    simp only [BatchProcessing.processLoop]
    split_ifs with hnil
    · subst hnil
      have hz : (c - 1) / c = 0 := Nat.div_eq_of_lt (by omega)
      simp [hz]
    · have hpos : 0 < batch.length := List.length_pos.mpr hnil
      have hone : (batch.length + (List.length ([] : List Item)) + c - 1) / c = 1 := by
        have he : batch.length + List.length ([] : List Item) + c - 1 =
            (batch.length - 1) + c := by simp; omega
        rw [he, Nat.add_div_right _ hc, Nat.div_eq_of_lt (by omega)]
      rw [hone]
      simp
  | cons it rest ih =>
    intro batch n st tr hb
    simp only [BatchProcessing.processLoop]
    split_ifs with hfull
    · have hfull' : batch.length + 1 = c := by
        simp at hfull
        omega
      have ihr := ih [] (n + 1)
        (BatchProcessing.insert_batch_to_db env ts conn st (batch ++ [it]) (n + 1))
        (tr ++ [(n + 1, batch ++ [it])]) (by simpa using hc)
      have hnum : batch.length + (it :: rest).length + c - 1 =
          ((List.length ([] : List Item)) + rest.length + c - 1) + c := by
        simp
        omega
      constructor
      · rw [ihr.1, hnum, Nat.add_div_right _ hc]
        omega
      · rw [ihr.2, hnum, Nat.add_div_right _ hc]
        simp
        omega
    · have hlt : (batch ++ [it]).length < c := by
        simp at hfull ⊢
        omega
      have ihr := ih (batch ++ [it]) n st tr hlt
      have hnum : batch.length + (it :: rest).length + c - 1 =
          (batch ++ [it]).length + rest.length + c - 1 := by
        simp
        omega
      constructor
      · rw [hnum]
        exact ihr.1
      · rw [hnum]
        exact ihr.2

theorem processLoop_sizes (env : DBEnv) (ts : String) (c : Nat) (conn : Bool)
    (hc : 0 < c) :
    ∀ (items batch : List Item) (n : Nat) (st : SysState) (tr : List (Nat × List Item)),
      batch.length < c →
      (∀ p ∈ tr, 0 < p.2.length ∧ p.2.length ≤ c) →
      ∀ p ∈ (BatchProcessing.processLoop env ts c conn items batch n st tr).submitted,
        0 < p.2.length ∧ p.2.length ≤ c := by
  intro items
  induction items with
  | nil =>
    intro batch n st tr hb htr p hp
    simp only [BatchProcessing.processLoop] at hp
    split_ifs at hp with hnil
    · exact htr p hp
    · rcases List.mem_append.mp hp with h | h
      · exact htr p h
      · rcases List.mem_singleton.mp h with rfl
        have hpos := List.length_pos.mpr hnil
        refine ⟨hpos, ?_⟩
        show batch.length ≤ c
        omega
  | cons it rest ih =>
    intro batch n st tr hb htr p hp
    simp only [BatchProcessing.processLoop] at hp
    split_ifs at hp with hfull
    · refine ih [] (n + 1) _ _ (by simpa using hc) ?_ p hp
      intro q hq
      rcases List.mem_append.mp hq with h | h
      · exact htr q h
      · rcases List.mem_singleton.mp h with rfl
        simp only [List.length_append, List.length_cons, List.length_nil] at hfull
        refine ⟨by simp, ?_⟩
        simp only []
        show (batch ++ [it]).length ≤ c
        simp
        omega
    · exact ih (batch ++ [it]) n st tr (by simp at hfull ⊢; omega) htr p hp

theorem processLoop_trace (env env' : DBEnv) (ts ts' : String) (c : Nat)
    (conn conn' : Bool) :
    ∀ (items batch : List Item) (n : Nat) (st st' : SysState)
      (tr : List (Nat × List Item)),
      (BatchProcessing.processLoop env ts c conn items batch n st tr).submitted =
        (BatchProcessing.processLoop env' ts' c conn' items batch n st' tr).submitted ∧
      (BatchProcessing.processLoop env ts c conn items batch n st tr).batch_number =
        (BatchProcessing.processLoop env' ts' c conn' items batch n st' tr).batch_number := by
  intro items
  induction items with
  | nil =>
    intro batch n st st' tr
    simp only [BatchProcessing.processLoop]
    split_ifs <;> exact ⟨rfl, rfl⟩
  | cons it rest ih =>
    intro batch n st st' tr
    simp only [BatchProcessing.processLoop]
    split_ifs
    · exact ih [] (n + 1) _ _ (tr ++ [(n + 1, batch ++ [it])])
    · exact ih (batch ++ [it]) n st st' tr

/-! ## Failure-path lemma for the modular committer -/

theorem insert_batch_fail (env : DBEnv) (ts : String) (st : SysState)
    (batch : List Item) (n : Nat)
    (H : (∃ it ∈ batch, env.execErr it ≠ none) ∨ env.commitErr n ≠ none) :
    (BatchProcessing.insert_batch_to_db env ts true st batch n).store.committed =
      st.store.committed ∧
    (BatchProcessing.insert_batch_to_db env ts true st batch n).store.pending = [] ∧
    ∃ m, (BatchProcessing.insert_batch_to_db env ts true st batch n).log.error_log =
      st.log.error_log ++
        [ErrorHandling.batch_entry ts n ("Failed to insert batch: " ++ m)] := by
  unfold BatchProcessing.insert_batch_to_db
  rw [if_neg (by simp)]
  cases hE : execBatch env st.store batch with
  | err s e =>
    refine ⟨execBatch_err_committed env batch st.store s e hE, rfl, e.msg, ?_⟩
    simp [ErrorHandling.log_batch_error]
  | ok s =>
    have hall := execBatch_ok_all env batch st.store s hE
    cases hC : env.commitErr n with
    | none =>
      exfalso
      rcases H with ⟨it, hit, hne⟩ | hne
      · exact hne (hall it hit)
      · exact hne hC
    | some m =>
      refine ⟨execBatch_ok_committed env batch st.store s hE, rfl, m, ?_⟩
      simp [ErrorHandling.log_batch_error]

/-! ## Lemmas about the record transformation -/

theorem processItem_error_of_missing (id : String) (d : DataProcessing.ItemData)
    (H : d.displayProperties = none ∨
      (∃ dp, d.displayProperties = some dp ∧ dp.name = none) ∨
      d.inventory = none) :
    ∃ k, DataProcessing.processItem id d = .error k := by
  rcases H with h | ⟨dp, hdp, hname⟩ | h
  · exact ⟨"displayProperties", by simp [DataProcessing.processItem, h]⟩
  · exact ⟨"name", by simp [DataProcessing.processItem, hdp, hname]⟩
  · cases hdp : d.displayProperties with
    | none => exact ⟨"displayProperties", by simp [DataProcessing.processItem, hdp]⟩
    | some dp =>
      cases hname : dp.name with
      | none => exact ⟨"name", by simp [DataProcessing.processItem, hdp, hname]⟩
      | some nm =>
        exact ⟨"inventory", by simp [DataProcessing.processItem, hdp, hname, h]⟩

theorem process_item_data_append (xs ys : List (String × DataProcessing.ItemData)) :
    (DataProcessing.process_item_data (xs ++ ys)).1 =
      (DataProcessing.process_item_data xs).1 ++ (DataProcessing.process_item_data ys).1 := by
  induction xs with
  | nil => rfl
  | cons x rest ih =>
    rcases x with ⟨id, d⟩
    simp only [List.cons_append, DataProcessing.process_item_data]
    cases h : DataProcessing.processItem id d <;> simp [h, ih]

theorem process_item_data_skip (pre post : List (String × DataProcessing.ItemData))
    (id : String) (d : DataProcessing.ItemData) (k : String)
    (h : DataProcessing.processItem id d = .error k) :
    (DataProcessing.process_item_data (pre ++ (id, d) :: post)).1 =
      (DataProcessing.process_item_data (pre ++ post)).1 := by
  rw [process_item_data_append, process_item_data_append]
  congr 1
  simp only [DataProcessing.process_item_data, h]

/-! ## Characterization of the validator predicate -/

theorem validate_item_row_iff (row : Validation.ItemRow) :
    Validation.validate_item_row row = true ↔
      (¬ row.item_id = "" ∧
       ¬ (row.name = "" ∨ row.name.toList.all (fun ch => ch.isWhitespace) = true ∨
          255 < row.name.length) ∧
       ¬ (row.description ≠ "" ∧ 1000 < row.description.length) ∧
       ¬ (row.icon ≠ "" ∧ ¬ "https://".toList.isPrefixOf row.icon.toList = true) ∧
       row.rarity ∈ Validation.valid_rarity) := by
  unfold Validation.validate_item_row
  split_ifs with h1 h2 h3 h4 h5 <;> simp_all

/-! ## Claim theorems -/

/-- C1: the full batched load is idempotent — with a present connection
and a failure-free driver, running `process_items_in_batches` a second
time over the identical record stream leaves the committed rows (and so
the row count) exactly as after the first run: the
`ON CONFLICT (ItemID) DO NOTHING` upsert skips every already-present key
and never overwrites or duplicates a row. -/
theorem c1_load_idempotent (env : DBEnv) (ts ts' : String) (c : Nat)
    (st : SysState) (items : List Item)
    (Hexec : ∀ it, env.execErr it = none) (Hcommit : ∀ n, env.commitErr n = none)
    (Hpending : st.store.pending = []) :
    (BatchProcessing.process_items_in_batches env ts' c true
        (BatchProcessing.process_items_in_batches env ts c true st items).state
        items).state.store.committed =
      (BatchProcessing.process_items_in_batches env ts c true st items).state.store.committed ∧
    (BatchProcessing.process_items_in_batches env ts' c true
        (BatchProcessing.process_items_in_batches env ts c true st items).state
        items).state.store.committed.length =
      (BatchProcessing.process_items_in_batches env ts c true st items).state.store.committed.length := by
  unfold BatchProcessing.process_items_in_batches
  have h1 := processLoop_ok env ts c Hexec Hcommit items [] 0 st [] Hpending
  have h2 := processLoop_ok env ts' c Hexec Hcommit items [] 0
    (BatchProcessing.processLoop env ts c true items [] 0 st []).state [] h1.2
  have keq : (BatchProcessing.processLoop env ts' c true items [] 0
      (BatchProcessing.processLoop env ts c true items [] 0 st []).state []).state.store.committed =
      (BatchProcessing.processLoop env ts c true items [] 0 st []).state.store.committed := by
    rw [h2.1, h1.1]
    exact insertAll_idem _ _
  exact ⟨keq, by rw [keq]⟩

/-- C1 witness: idempotence at a concrete stream of three records with
capacity 2 on an empty store. -/
theorem c1_load_idempotent_witness :
    (BatchProcessing.process_items_in_batches DBEnv.ok "t2" 2 true
        (BatchProcessing.process_items_in_batches DBEnv.ok "t1" 2 true Examples.st0
          [Examples.a0, Examples.b0, Examples.c0]).state
        [Examples.a0, Examples.b0, Examples.c0]).state.store.committed =
      (BatchProcessing.process_items_in_batches DBEnv.ok "t1" 2 true Examples.st0
        [Examples.a0, Examples.b0, Examples.c0]).state.store.committed ∧
    (BatchProcessing.process_items_in_batches DBEnv.ok "t2" 2 true
        (BatchProcessing.process_items_in_batches DBEnv.ok "t1" 2 true Examples.st0
          [Examples.a0, Examples.b0, Examples.c0]).state
        [Examples.a0, Examples.b0, Examples.c0]).state.store.committed.length =
      (BatchProcessing.process_items_in_batches DBEnv.ok "t1" 2 true Examples.st0
        [Examples.a0, Examples.b0, Examples.c0]).state.store.committed.length :=
  c1_load_idempotent DBEnv.ok "t1" "t2" 2 Examples.st0
    [Examples.a0, Examples.b0, Examples.c0] (fun _ => rfl) (fun _ => rfl) rfl

/-- C2 counterexample: in the monolithic committer a non-database error
(here a `KeyError` raised while executing the second record of batch 1)
is caught WITHOUT a rollback, so the batch's first row stays pending and
the next batch's commit makes it durable: after the run the error log
shows exactly one failure, for batch 1, yet batch 1's row `a0` is
observable in the committed store — the claim's all-or-nothing rollback
fails. -/
theorem c2_atomicity_counterexample :
    (Ckdb.process_items_in_batches Examples.envKeyErr "t" 2 true Examples.ck0
        [Examples.a0, Examples.bad0, Examples.b0]).1.log.batch_errors =
      [Ckdb.batch_entry "t" 1 "Unexpected error during batch insertion: KeyError: item_id"] ∧
    toRow Examples.a0 ∈
      (Ckdb.process_items_in_batches Examples.envKeyErr "t" 2 true Examples.ck0
        [Examples.a0, Examples.bad0, Examples.b0]).1.store.committed := by
  constructor <;> decide

/-- C2 (amended): in the modular committer every error raised during the
per-record execute step or the commit step rolls back the whole
transaction (committed rows unchanged, nothing left pending), appends one
batch-scoped error entry carrying the batch sequence number and the error
text, and failures never change which batches the driver goes on to
submit (the submission trace is independent of the failure oracle, the
connection and the starting state).  The monolithic committer gives the
rollback guarantee only for database errors — see the counterexample. -/
theorem c2_batch_failure_isolated (env env' : DBEnv) (ts ts' : String)
    (st st' : SysState) (batch items : List Item) (n c : Nat) (conn conn' : Bool)
    (H : (∃ it ∈ batch, env.execErr it ≠ none) ∨ env.commitErr n ≠ none) :
    ((BatchProcessing.insert_batch_to_db env ts true st batch n).store.committed =
        st.store.committed ∧
      (BatchProcessing.insert_batch_to_db env ts true st batch n).store.pending = [] ∧
      ∃ m, (BatchProcessing.insert_batch_to_db env ts true st batch n).log.error_log =
        st.log.error_log ++
          [ErrorHandling.batch_entry ts n ("Failed to insert batch: " ++ m)]) ∧
    (BatchProcessing.process_items_in_batches env ts c conn st items).submitted =
      (BatchProcessing.process_items_in_batches env' ts' c conn' st' items).submitted := by
  refine ⟨insert_batch_fail env ts st batch n H, ?_⟩
  exact (processLoop_trace env env' ts ts' c conn conn' items [] 0 st st' []).1

/-- C2 witness: concrete failing batch `[bad0]` (its execute raises) on
the empty store — nothing is committed, nothing stays pending, one batch-1
error entry is appended, and the submission trace of a one-record run is
unchanged by swapping the oracle, timestamp, connection and state. -/
theorem c2_batch_failure_isolated_witness :
    ((BatchProcessing.insert_batch_to_db Examples.envKeyErr "t" true Examples.st0
        [Examples.bad0] 1).store.committed = Examples.st0.store.committed ∧
      (BatchProcessing.insert_batch_to_db Examples.envKeyErr "t" true Examples.st0
        [Examples.bad0] 1).store.pending = [] ∧
      ∃ m, (BatchProcessing.insert_batch_to_db Examples.envKeyErr "t" true Examples.st0
        [Examples.bad0] 1).log.error_log =
        Examples.st0.log.error_log ++
          [ErrorHandling.batch_entry "t" 1 ("Failed to insert batch: " ++ m)]) ∧
    (BatchProcessing.process_items_in_batches Examples.envKeyErr "t" 2 true Examples.st0
        [Examples.a0]).submitted =
      (BatchProcessing.process_items_in_batches DBEnv.ok "u" 2 false Examples.st0
        [Examples.a0]).submitted :=
  c2_batch_failure_isolated Examples.envKeyErr DBEnv.ok "t" "u" Examples.st0 Examples.st0
    [Examples.bad0] [Examples.a0] 1 2 true false
    (Or.inl ⟨Examples.bad0, by decide, by decide⟩)

/-- C3: with a configured capacity `c > 0`, the modular driver submits
exactly `⌈n / c⌉ = (n + c - 1) / c` batches to the committer for a stream
of `n` records (so zero batches for an empty stream, and no empty trailing
batch), and its `batch_number` counter ends at that same value — for every
oracle, connection and starting state. -/
theorem c3_batch_count (env : DBEnv) (ts : String) (c : Nat) (conn : Bool)
    (st : SysState) (items : List Item) (hc : 0 < c) :
    (BatchProcessing.process_items_in_batches env ts c conn st items).submitted.length =
      (items.length + c - 1) / c ∧
    (BatchProcessing.process_items_in_batches env ts c conn st items).batch_number =
      (items.length + c - 1) / c := by
  have h := processLoop_count env ts c conn hc items [] 0 st [] (by simpa using hc)
  simp only [List.length_nil, Nat.zero_add] at h
  exact ⟨h.2, h.1⟩

/-- C3 witness: three records at capacity 2 make exactly `⌈3/2⌉ = 2`
batches. -/
theorem c3_batch_count_witness :
    0 < 2 ∧
    ((BatchProcessing.process_items_in_batches DBEnv.ok "t" 2 true Examples.st0
        [Examples.a0, Examples.b0, Examples.c0]).submitted.length =
      ([Examples.a0, Examples.b0, Examples.c0].length + 2 - 1) / 2 ∧
    (BatchProcessing.process_items_in_batches DBEnv.ok "t" 2 true Examples.st0
        [Examples.a0, Examples.b0, Examples.c0]).batch_number =
      ([Examples.a0, Examples.b0, Examples.c0].length + 2 - 1) / 2) :=
  ⟨by decide, c3_batch_count DBEnv.ok "t" 2 true Examples.st0
    [Examples.a0, Examples.b0, Examples.c0] (by decide)⟩

/-- C4 counterexample: the claim also covers the monolithic
`process_items_in_batches`, and there it fails — with a `None` connection
the committer's early return skips the `finally` that clears the global
buffer, so the buffer keeps growing and oversized batches are submitted:
at capacity 2 a three-record stream submits batches of sizes 2, 3 and 3. -/
theorem c4_size_counterexample :
    ¬ ∀ p ∈ (Ckdb.process_items_in_batches DBEnv.ok "t" 2 false Examples.ck0
        [Examples.a0, Examples.b0, Examples.c0]).2, p.2.length ≤ 2 := by
  decide

/-- C4 (amended): every batch the modular `process_items_in_batches`
submits to `insert_batch_to_db` satisfies `0 < size ≤ capacity`
(full batches reach exactly the capacity, the trailing batch is submitted
only when non-empty); the monolithic variant preserves this only while
the connection is present, its never-cleared global buffer breaking the
bound with a `None` connection (see the counterexample). -/
theorem c4_batch_size_invariant (env : DBEnv) (ts : String) (c : Nat) (conn : Bool)
    (st : SysState) (items : List Item) (hc : 0 < c) :
    ∀ p ∈ (BatchProcessing.process_items_in_batches env ts c conn st items).submitted,
      0 < p.2.length ∧ p.2.length ≤ c :=
  processLoop_sizes env ts c conn hc items [] 0 st [] (by simpa using hc)
    (fun p hp => absurd hp (List.not_mem_nil p))

/-- C4 witness: the first batch of a concrete three-record run at
capacity 2 has size within the bounds. -/
theorem c4_batch_size_invariant_witness :
    0 < 2 ∧ (0 < ((1, [Examples.a0, Examples.b0]) : Nat × List Item).2.length ∧
      ((1, [Examples.a0, Examples.b0]) : Nat × List Item).2.length ≤ 2) :=
  ⟨by decide, c4_batch_size_invariant DBEnv.ok "t" 2 true Examples.st0
    [Examples.a0, Examples.b0, Examples.c0] (by decide)
    (1, [Examples.a0, Examples.b0]) (by decide)⟩

/-- C5: the monolithic committer's docstring promises to clear the
temporary batch storage, and its `finally` clause does so on every path
that enters the `try` — but the `None`-connection early return happens
before the `try`, so the global buffer keeps its records (first conjunct),
while with a present connection the buffer is cleared (second conjunct).
Evaluated at the failing input `conn = None`, buffer `[a0]`, batch 1. -/
theorem c5_buffer_clear_bug :
    (Ckdb.insert_batch_to_db DBEnv.ok "t" false Examples.ck1 [Examples.a0] 1).current_batch =
      [Examples.a0] ∧
    (Ckdb.insert_batch_to_db DBEnv.ok "t" true Examples.ck1 [Examples.a0] 1).current_batch =
      [] := by
  constructor <;> decide

/-- C6 counterexample: a record whose key field (`item_id`) is the empty
string is NOT dropped by `process_item_data` — it is emitted (first
conjunct) and subsequently counts toward the size of the batch submitted
to the committer (second conjunct, a one-record run submits a batch of
size 1 containing it). -/
theorem c6_empty_key_counterexample :
    (DataProcessing.process_item_data [("", Examples.rawFull)]).1.map DataProcessing.toItem =
      [{ item_id := "", name := "Blade", description := "d", rarity := "Rare",
         icon := "https://www.bungie.net/img.png" }] ∧
    ((BatchProcessing.process_items_in_batches DBEnv.ok "t" 2 true Examples.st0
        ((DataProcessing.process_item_data [("", Examples.rawFull)]).1.map
          DataProcessing.toItem)).submitted.map (fun p => p.2.length)) = [1] := by
  constructor <;> decide

/-- C6 (amended): what `process_item_data` drops before batching are
records with a MISSING required field (`displayProperties`, its `name`
entry, or the `inventory` mapping): such a record leaves the processed
stream unchanged, and therefore contributes to no submitted batch — the
driver's submission trace is that of the stream without it.  A record
whose key field is present but empty is not dropped (see the
counterexample). -/
theorem c6_missing_field_dropped (pre post : List (String × DataProcessing.ItemData))
    (id : String) (d : DataProcessing.ItemData)
    (H : d.displayProperties = none ∨
      (∃ dp, d.displayProperties = some dp ∧ dp.name = none) ∨
      d.inventory = none) :
    (DataProcessing.process_item_data (pre ++ (id, d) :: post)).1 =
      (DataProcessing.process_item_data (pre ++ post)).1 ∧
    ∀ (env : DBEnv) (ts : String) (c : Nat) (conn : Bool) (st : SysState),
      (BatchProcessing.process_items_in_batches env ts c conn st
          ((DataProcessing.process_item_data (pre ++ (id, d) :: post)).1.map
            DataProcessing.toItem)).submitted =
        (BatchProcessing.process_items_in_batches env ts c conn st
          ((DataProcessing.process_item_data (pre ++ post)).1.map
            DataProcessing.toItem)).submitted := by
  obtain ⟨k, hk⟩ := processItem_error_of_missing id d H
  have hskip := process_item_data_skip pre post id d k hk
  exact ⟨hskip, fun env ts c conn st => by rw [hskip]⟩

/-- C6 witness: a record missing the `name` entry is dropped — processing
`[("q", rawNoName), ("z", rawFull)]` yields the same records and the same
submission trace as processing `[("z", rawFull)]` alone. -/
theorem c6_missing_field_dropped_witness :
    (DataProcessing.process_item_data
        [("q", Examples.rawNoName), ("z", Examples.rawFull)]).1 =
      (DataProcessing.process_item_data [("z", Examples.rawFull)]).1 ∧
    (BatchProcessing.process_items_in_batches DBEnv.ok "t" 2 true Examples.st0
        ((DataProcessing.process_item_data
          [("q", Examples.rawNoName), ("z", Examples.rawFull)]).1.map
            DataProcessing.toItem)).submitted =
      (BatchProcessing.process_items_in_batches DBEnv.ok "t" 2 true Examples.st0
        ((DataProcessing.process_item_data [("z", Examples.rawFull)]).1.map
          DataProcessing.toItem)).submitted := by
  have h := c6_missing_field_dropped [] [("z", Examples.rawFull)] "q" Examples.rawNoName
    (Or.inr (Or.inl ⟨{ name := none, description := some "d", icon := none }, rfl, rfl⟩))
  exact ⟨h.1, h.2 DBEnv.ok "t" 2 true Examples.st0⟩

/-- C7 counterexample: a call to the `error_handling` module's
`log_batch_error` leaves the persistent error-log file untouched (first
conjunct: the file is still empty) even though the call did append its
batch-scoped entry to the in-memory log (second conjunct) — so not every
`log_batch_error` call writes the file line the claim demands. -/
theorem c7_file_counterexample :
    (ErrorHandling.log_batch_error "t" 1 "boom" ErrState.empty).file = [] ∧
    (ErrorHandling.log_batch_error "t" 1 "boom" ErrState.empty).error_log =
      [ErrorHandling.batch_entry "t" 1 "boom"] := by
  constructor <;> rfl

/-- C7 (amended): the monolithic script's `log_batch_error` appends its
`[ts] BATCH n: message` line both to the persistent error-log file and to
the in-memory `BATCH_ERRORS` list, while the `error_handling` module's
`log_batch_error` appends its `[ts] BATCH n ERROR: message` line only to
the in-memory `ERROR_LOG` (and console), never to the file. -/
theorem c7_batch_error_logging (ts : String) (n : Nat) (m : String) (s : ErrState) :
    (Ckdb.log_batch_error ts n m s).file = s.file ++ [Ckdb.batch_entry ts n m] ∧
    (Ckdb.log_batch_error ts n m s).batch_errors =
      s.batch_errors ++ [Ckdb.batch_entry ts n m] ∧
    (ErrorHandling.log_batch_error ts n m s).file = s.file ∧
    (ErrorHandling.log_batch_error ts n m s).error_log =
      s.error_log ++ [ErrorHandling.batch_entry ts n m] :=
  ⟨rfl, rfl, rfl, rfl⟩

/-- C8: the validator's rule outcomes — (1) every fetched row whose
description has length 1001 lands in the violation list; (2) a fetched row
with all fields valid and rarity `Legendary` does not; (3) every row the
validator accepts has its rarity in the fixed enumerated set
`{Common, Uncommon, Rare, Legendary, Exotic}`. -/
theorem c8_validator_rules (ts : String) (s : ErrState) (c : Validation.Conn)
    (rows : List Validation.ItemRow) (hrows : c.rows = Except.ok rows) :
    (∀ row ∈ rows, row.description.length = 1001 →
      row ∈ (Validation.validate_all_items ts (some c) s).violations) ∧
    (∀ row ∈ rows, row.item_id ≠ "" →
      row.name ≠ "" → ¬ (row.name.toList.all (fun ch => ch.isWhitespace) = true) →
      row.name.length ≤ 255 → row.description.length ≤ 1000 →
      (row.icon = "" ∨ "https://".toList.isPrefixOf row.icon.toList) →
      row.rarity = "Legendary" →
      row ∉ (Validation.validate_all_items ts (some c) s).violations) ∧
    (∀ row : Validation.ItemRow, Validation.validate_item_row row = true →
      row.rarity ∈ Validation.valid_rarity) := by
  have hv : (Validation.validate_all_items ts (some c) s).violations =
      rows.filter (fun r => ¬ Validation.validate_item_row r) := by
    simp [Validation.validate_all_items, hrows]
  refine ⟨?_, ?_, ?_⟩
  · intro row hmem hlen
    have hfalse : Validation.validate_item_row row = false := by
      rw [Bool.eq_false_iff]
      rw [Ne, validate_item_row_iff]
      rintro ⟨-, -, k3, -, -⟩
      have hne : row.description ≠ "" := by
        intro he
        rw [he] at hlen
        exact absurd hlen (by decide)
      exact k3 ⟨hne, by omega⟩
    rw [hv, List.mem_filter]
    exact ⟨hmem, by simp [hfalse]⟩
  · intro row hmem h1 h2 h3 h4 h5 h6 h7 hmemf
    have htrue : Validation.validate_item_row row = true := by
      rw [validate_item_row_iff]
      refine ⟨h1, ?_, ?_, ?_, ?_⟩
      · rintro (g | g | g)
        · exact h2 g
        · exact h3 g
        · omega
      · rintro ⟨-, glen⟩
        omega
      · rintro ⟨gne, gpre⟩
        rcases h6 with h | h
        · exact gne h
        · exact gpre h
      · rw [h7]
        decide
    rw [hv, List.mem_filter] at hmemf
    simp [htrue] at hmemf
  · intro row h
    exact ((validate_item_row_iff row).mp h).2.2.2.2

/-- C8 witness: with the fetched rows `[longRow, goodRow]`, the row with
the 1001-character description is in the violation list, the fully valid
`Legendary` row is not, and the accepted row's rarity is in the
enumerated set. -/
theorem c8_validator_rules_witness :
    Examples.longRow ∈ (Validation.validate_all_items "t"
      (some ⟨Except.ok [Examples.longRow, Examples.goodRow]⟩) ErrState.empty).violations ∧
    Examples.goodRow ∉ (Validation.validate_all_items "t"
      (some ⟨Except.ok [Examples.longRow, Examples.goodRow]⟩) ErrState.empty).violations ∧
    Examples.goodRow.rarity ∈ Validation.valid_rarity := by
  have h := c8_validator_rules "t" ErrState.empty
    ⟨Except.ok [Examples.longRow, Examples.goodRow]⟩
    [Examples.longRow, Examples.goodRow] rfl
  refine ⟨?_, ?_, ?_⟩
  · refine h.1 Examples.longRow (List.mem_cons_self _ _) ?_
    show (String.mk (List.replicate 1001 'x')).length = 1001
    rw [show (String.mk (List.replicate 1001 'x')).length =
      (List.replicate 1001 'x').length from rfl, List.length_replicate]
  · exact h.2.1 Examples.goodRow
      (List.mem_cons_of_mem _ (List.mem_cons_self _ _))
      (by decide) (by decide) (by decide) (by decide) (by decide)
      (Or.inr (by decide)) rfl
  · exact h.2.2 Examples.goodRow (by decide)

/-- C9 counterexample: handed an absent (`None`) connection,
`validate_all_items` does not return — it terminates the process
(`handle_critical_error` with `exit_on_failure=True` calls
`sys.exit(1)`). -/
theorem c9_exit_counterexample :
    ¬ (Validation.validate_all_items "t" none ErrState.empty).exit =
      Validation.RunExit.returned := by
  decide

/-- C9 (amended): with a present connection the validation pass always
returns normally — in particular a store read that raises is caught and
logged as `Validation failed: <e>` — while an absent (`None`) connection
is escalated to a critical error that is logged and terminates the
process with exit status 1. -/
theorem c9_validation_no_crash (ts : String) (c : Validation.Conn) (s : ErrState) :
    (Validation.validate_all_items ts (some c) s).exit = Validation.RunExit.returned ∧
    (∀ e, c.rows = Except.error e →
      (Validation.validate_all_items ts (some c) s).log.error_log =
        s.error_log ++ [ErrorHandling.error_entry ts false ("Validation failed: " ++ e)]) ∧
    (Validation.validate_all_items ts none s).exit = Validation.RunExit.exited 1 ∧
    (Validation.validate_all_items ts none s).log.error_log =
      s.error_log ++ [ErrorHandling.error_entry ts true "Database connection is None."] := by
  refine ⟨?_, ?_, rfl, rfl⟩
  · cases hr : c.rows with
    | error e => simp [Validation.validate_all_items, hr]
    | ok rows => simp [Validation.validate_all_items, hr]
  · intro e he
    simp [Validation.validate_all_items, he, ErrorHandling.log_error]

/-- C9 witness: a concrete raising store read is logged and the pass
still returns. -/
theorem c9_validation_no_crash_witness :
    (Validation.validate_all_items "t" (some ⟨Except.error "boom"⟩) ErrState.empty).exit =
      Validation.RunExit.returned ∧
    (Validation.validate_all_items "t" (some ⟨Except.error "boom"⟩) ErrState.empty).log.error_log =
      [ErrorHandling.error_entry "t" false "Validation failed: boom"] := by
  have h := c9_validation_no_crash "t" ⟨Except.error "boom"⟩ ErrState.empty
  refine ⟨h.1, ?_⟩
  rw [h.2.1 "boom" rfl]
  decide

/-- C10 (implicit): a source item accepted by `process_item_data`
(present `displayProperties` with a `name`, present `inventory`) whose
inventory lacks `tierTypeName` is emitted with rarity `"Unknown"`, and
`validate_item_row` rejects every row whose rarity is `"Unknown"` (it is
outside the valid set) — so every such loaded row later shows up as a
validation violation. -/
theorem c10_unknown_rarity (id : String) (d : DataProcessing.ItemData)
    (dp : DataProcessing.DisplayProperties) (nm : String)
    (inv : DataProcessing.Inventory)
    (h1 : d.displayProperties = some dp) (h2 : dp.name = some nm)
    (h3 : d.inventory = some inv) (h4 : inv.tierTypeName = none) :
    (∃ r, DataProcessing.processItem id d = Except.ok r ∧ r.rarity = "Unknown") ∧
    (∀ row : Validation.ItemRow, row.rarity = "Unknown" →
      Validation.validate_item_row row = false) := by
  constructor
  · simp only [DataProcessing.processItem, h1, h2, h3, h4, Option.getD_none]
    exact ⟨_, rfl, rfl⟩
  · intro row hr
    rw [Bool.eq_false_iff]
    rw [Ne, validate_item_row_iff]
    rintro ⟨-, -, -, -, hmem⟩
    rw [hr] at hmem
    exact absurd hmem (by decide)

/-- C10 witness: the concrete raw item `rawNoTier` (inventory without
`tierTypeName`) is emitted with rarity `Unknown`, and the concrete row
`unknownRow` is rejected by the validator. -/
theorem c10_unknown_rarity_witness :
    (∃ r, DataProcessing.processItem "7" Examples.rawNoTier = Except.ok r ∧
      r.rarity = "Unknown") ∧
    Validation.validate_item_row Examples.unknownRow = false := by
  have h := c10_unknown_rarity "7" Examples.rawNoTier
    { name := some "Blade", description := none, icon := none } "Blade"
    { tierTypeName := none } rfl rfl rfl rfl
  exact ⟨h.1, h.2 Examples.unknownRow rfl⟩

end CodexKeep
